import Mathlib

/-!
Verification of the constant-product AMM game engine and its round
lifecycle, shallowly embedded from the Python source.

Numeric values (`Decimal` columns in the source) are embedded as exact
rationals `ℚ`; the spec states its numeric properties "within rounding
tolerance" and "under exact arithmetic", and the rational embedding is the
exact-arithmetic reading of the `Decimal` code.

Stateful methods are embedded as state-passing functions returning a pair
of the result (`Except` for methods that can raise) and the post-state;
a raised exception leaves the Python object unchanged, so the error branch
returns the input state.
-/

namespace AmmGame

/-- Errors raised by the pool engine (`ValueError` in the source,
classified by the message raised). -/
inductive PoolError where
  | invalidAmount
  | negativeAmount
  | insufficientReserves
deriving Repr, DecidableEq

/-- Constant-product pool, from `app/models/pool.py` (class `Pool`).
Only the columns the engine reads or writes are embedded; `id` stands for
the UUID primary key and currency ids stand for the currency foreign keys. -/
structure Pool where
  id : Nat
  currency_x_id : Nat
  currency_y_id : Nat
  x_reserve : ℚ
  y_reserve : ℚ
  K : ℚ
  is_active : Bool
deriving Repr, DecidableEq

/-- `Pool.price_x_in_y` from `app/models/pool.py`. -/
def Pool.price_x_in_y (p : Pool) : ℚ :=
  if p.x_reserve = 0 then 0 else p.y_reserve / p.x_reserve

/-- `Pool.price_y_in_x` from `app/models/pool.py`. -/
def Pool.price_y_in_x (p : Pool) : ℚ :=
  if p.y_reserve = 0 then 0 else p.x_reserve / p.y_reserve

/-- `Pool.swap_x_for_y` from `app/models/pool.py`: raises on `dx <= 0`,
otherwise commits `x_reserve = x + dx`, `y_reserve = K / (x + dx)` and
returns `dy = y - K / (x + dx)`. `K` is not recomputed. -/
def Pool.swap_x_for_y (p : Pool) (dx : ℚ) : Except PoolError ℚ × Pool :=
  if dx ≤ 0 then (.error .invalidAmount, p)
  else
    let x_new := p.x_reserve + dx
    let y_new := p.K / x_new
    let dy := p.y_reserve - y_new
    (.ok dy, { p with x_reserve := x_new, y_reserve := y_new })

/-- `Pool.swap_y_for_x` from `app/models/pool.py`: the symmetric swap. -/
def Pool.swap_y_for_x (p : Pool) (dy : ℚ) : Except PoolError ℚ × Pool :=
  if dy ≤ 0 then (.error .invalidAmount, p)
  else
    let y_new := p.y_reserve + dy
    let x_new := p.K / y_new
    let dx := p.x_reserve - x_new
    (.ok dx, { p with x_reserve := x_new, y_reserve := y_new })

/-- `Pool.add_liquidity` from `app/models/pool.py`: requires non-negative
deltas, then recomputes `K` from the new reserves. -/
def Pool.add_liquidity (p : Pool) (dx dy : ℚ) : Except PoolError Unit × Pool :=
  if dx < 0 ∨ dy < 0 then (.error .negativeAmount, p)
  else
    let x' := p.x_reserve + dx
    let y' := p.y_reserve + dy
    (.ok (), { p with x_reserve := x', y_reserve := y', K := x' * y' })

/-- `Pool.remove_liquidity` from `app/models/pool.py`: requires
non-negative deltas and enough reserves, then recomputes `K`. -/
def Pool.remove_liquidity (p : Pool) (dx dy : ℚ) : Except PoolError Unit × Pool :=
  if dx < 0 ∨ dy < 0 then (.error .negativeAmount, p)
  else if p.x_reserve < dx ∨ p.y_reserve < dy then (.error .insufficientReserves, p)
  else
    let x' := p.x_reserve - dx
    let y' := p.y_reserve - dy
    (.ok (), { p with x_reserve := x', y_reserve := y', K := x' * y' })

/-- Transaction row, from `app/models/transaction.py` as populated by
`create_transaction_record` in `app/pools/routes.py` (`user_id` is always
left unset there; `status` is always EXECUTED, so it is not embedded). -/
structure Tx where
  pool_id : Nat
  user_id : Option Nat
  amount_in : ℚ
  currency_in_id : Nat
  amount_out : ℚ
  currency_out_id : Nat
  price_execution : ℚ
deriving Repr, DecidableEq

/-- PlayerBalance row, from `api/app/models/player_data.py`. -/
structure PlayerBalance where
  player_id : Nat
  experiment_round_id : Nat
  currency_id : Nat
  balance : ℚ
deriving Repr, DecidableEq

/-- Round template row, from `api/app/models/round.py` (class `Round`);
only the columns the lifecycle operations read are embedded, timestamps
are abstract `Nat` clock values. -/
structure Round where
  id : Nat
  experiment_id : Nat
  initial_reserve_x : ℚ
  initial_reserve_y : ℚ
  started_at : Option Nat
  ended_at : Option Nat
deriving Repr, DecidableEq

/-- Group row, from `api/app/models/experiment.py`. -/
structure Group where
  id : Nat
  experiment_id : Nat
  group_number : Nat
deriving Repr, DecidableEq

/-- ExperimentRound row (the live pool instance), from
`api/app/models/round.py`; its UUID primary key is random and unused by
any claim, so it is not embedded. -/
structure ExperimentRound where
  round_id : Nat
  group_id : Nat
  reserve_x : ℚ
  reserve_y : ℚ
  k_constant : ℚ
  transaction_fee_percent : ℚ
  is_active : Bool
  started_at : Option Nat
  ended_at : Option Nat
deriving Repr, DecidableEq

/-- The committed database state: the tables the embedded operations
read or write. -/
structure Db where
  pools : List Pool
  transactions : List Tx
  player_balances : List PlayerBalance
  rounds : List Round
  groups : List Group
  experiment_rounds : List ExperimentRound
deriving Repr, DecidableEq

/-- Errors surfaced by the route and repository layers (HTTP 400/404 and
the repository exceptions, classified by the message). -/
inductive ApiError where
  | poolNotFound
  | invalidSwapParams
  | slippageExceeded
  | roundNotFound
  | alreadyStarted
  | notStarted
  | alreadyEnded
deriving Repr, DecidableEq

/-- `create_transaction_record` from `app/pools/routes.py`: builds one
Transaction row with `price_execution = amount_out / amount_in` (zero when
`amount_in` is not positive) and `user_id` unset, and adds it to the
session. It reads and writes nothing else — in particular it never
touches `player_balances`. -/
def create_transaction_record (db : Db) (pool_id : Nat)
    (currency_in_id currency_out_id : Nat) (amount_in amount_out : ℚ) :
    Tx × Db :=
  let price_execution := if 0 < amount_in then amount_out / amount_in else 0
  let tx : Tx :=
    { pool_id := pool_id, user_id := none, amount_in := amount_in,
      currency_in_id := currency_in_id, amount_out := amount_out,
      currency_out_id := currency_out_id, price_execution := price_execution }
  (tx, { db with transactions := db.transactions ++ [tx] })

/-- Swap request body, from `app/pools/schemas.py` (`min_amount_out`
defaults to 0 there). -/
structure SwapRequest where
  amount_in : ℚ
  min_amount_out : ℚ
deriving Repr, DecidableEq

/-- Swap response body: the fields of `SwapXForYResponse` the claims
mention. -/
structure SwapResponse where
  amount_out : ℚ
  price_execution : ℚ
deriving Repr, DecidableEq

/-- `repo_get_pool` (`get_pool` in `app/pools/repository.py`): first pool
with the given id, or `PoolNotFoundError`. -/
def get_pool (db : Db) (pool_id : Nat) : Option Pool :=
  db.pools.find? (fun p => p.id == pool_id)

/-- Helper for committing an updated pool row: the session write-back of
the mutated `pool` object. -/
def putPool (db : Db) (p : Pool) : Db :=
  { db with pools := db.pools.map (fun q => if q.id == p.id then p else q) }

/-- Route `swap_x_for_y` from `app/pools/routes.py`. A raised
`HTTPException` or `ValueError` aborts the request before `db.commit()`;
the session opened by `get_db` (`database.py`) is then closed without a
commit, so the in-memory reserve mutation and the pending transaction row
are discarded together — the error branches return the unchanged
database. On success the committed state holds the updated reserves and
exactly one appended transaction row. -/
def route_swap_x_for_y (db : Db) (pool_id : Nat) (req : SwapRequest) :
    Except ApiError SwapResponse × Db :=
  match get_pool db pool_id with
  | none => (.error .poolNotFound, db)
  | some pool =>
    match pool.swap_x_for_y req.amount_in with
    | (.error _, _) => (.error .invalidSwapParams, db)
    | (.ok amount_out, pool') =>
      if amount_out < req.min_amount_out then
        (.error .slippageExceeded, db)
      else
        let db₁ := putPool db pool'
        let (_, db₂) := create_transaction_record db₁ pool.id
          pool.currency_x_id pool.currency_y_id req.amount_in amount_out
        let price_execution :=
          if 0 < req.amount_in then amount_out / req.amount_in else 0
        (.ok { amount_out := amount_out, price_execution := price_execution }, db₂)

/-- Route `swap_y_for_x` from `app/pools/routes.py`, symmetric to
`route_swap_x_for_y`. -/
def route_swap_y_for_x (db : Db) (pool_id : Nat) (req : SwapRequest) :
    Except ApiError SwapResponse × Db :=
  match get_pool db pool_id with
  | none => (.error .poolNotFound, db)
  | some pool =>
    match pool.swap_y_for_x req.amount_in with
    | (.error _, _) => (.error .invalidSwapParams, db)
    | (.ok amount_out, pool') =>
      if amount_out < req.min_amount_out then
        (.error .slippageExceeded, db)
      else
        let db₁ := putPool db pool'
        let (_, db₂) := create_transaction_record db₁ pool.id
          pool.currency_y_id pool.currency_x_id req.amount_in amount_out
        let price_execution :=
          if 0 < req.amount_in then amount_out / req.amount_in else 0
        (.ok { amount_out := amount_out, price_execution := price_execution }, db₂)

/-- `get_round_by_id` from `api/app/rounds/repository.py`: first round
with the given id. -/
def get_round_by_id (db : Db) (round_id : Nat) : Option Round :=
  db.rounds.find? (fun r => r.id == round_id)

/-- `initialize_experiment_rounds` from `api/app/rounds/repository.py`:
raises `RoundNotFoundError` on an unknown round id, otherwise creates one
ExperimentRound per Group of the round's experiment, seeded from the
round's initial reserves, with `k_constant` the product of those
reserves, a zero fee and `is_active = False`, and commits them. -/
def initialize_experiment_rounds (db : Db) (round_id : Nat) :
    Except ApiError (List ExperimentRound) × Db :=
  match get_round_by_id db round_id with
  | none => (.error .roundNotFound, db)
  | some round_obj =>
    let groups := db.groups.filter
      (fun g => g.experiment_id == round_obj.experiment_id)
    let ers := groups.map (fun g =>
      { round_id := round_id, group_id := g.id,
        reserve_x := round_obj.initial_reserve_x,
        reserve_y := round_obj.initial_reserve_y,
        k_constant := round_obj.initial_reserve_x * round_obj.initial_reserve_y,
        transaction_fee_percent := 0, is_active := false,
        started_at := none, ended_at := none : ExperimentRound })
    (.ok ers, { db with experiment_rounds := db.experiment_rounds ++ ers })

/-- `start_round` from `api/app/rounds/repository.py`: raises
`RoundNotFoundError` on an unknown id and `ValueError` ("already been
started") when `started_at` is set, before any mutation; otherwise stamps
the round's `started_at` and activates every ExperimentRound of the
round, stamping their `started_at`. `now` stands for
`datetime.now(timezone.utc)`. -/
def start_round (db : Db) (round_id : Nat) (now : Nat) :
    Except ApiError Round × Db :=
  match get_round_by_id db round_id with
  | none => (.error .roundNotFound, db)
  | some round_obj =>
    if round_obj.started_at.isSome then (.error .alreadyStarted, db)
    else
      let round' := { round_obj with started_at := some now }
      (.ok round',
        { db with
          rounds := db.rounds.map (fun r =>
            if r.id == round_id then { r with started_at := some now } else r),
          experiment_rounds := db.experiment_rounds.map (fun er =>
            if er.round_id == round_id then
              { er with is_active := true, started_at := some now }
            else er) })

/-- `end_round` from `api/app/rounds/repository.py`: raises
`RoundNotFoundError` on an unknown id, `ValueError` ("hasn't started")
when `started_at` is unset, and `ValueError` ("already ended") when
`ended_at` is set, each before any mutation; otherwise stamps the round's
`ended_at` and deactivates every ExperimentRound of the round, stamping
their `ended_at`. -/
def end_round (db : Db) (round_id : Nat) (now : Nat) :
    Except ApiError Round × Db :=
  match get_round_by_id db round_id with
  | none => (.error .roundNotFound, db)
  | some round_obj =>
    if round_obj.started_at.isNone then (.error .notStarted, db)
    else if round_obj.ended_at.isSome then (.error .alreadyEnded, db)
    else
      let round' := { round_obj with ended_at := some now }
      (.ok round',
        { db with
          rounds := db.rounds.map (fun r =>
            if r.id == round_id then { r with ended_at := some now } else r),
          experiment_rounds := db.experiment_rounds.map (fun er =>
            if er.round_id == round_id then
              { er with is_active := false, ended_at := some now }
            else er) })

/-- Database-level liquidity change: look the pool up and apply
`Pool.add_liquidity`, committing the updated row (management path,
`app/models/pool.py`). -/
def db_add_liquidity (db : Db) (pool_id : Nat) (dx dy : ℚ) :
    Except ApiError Unit × Db :=
  match get_pool db pool_id with
  | none => (.error .poolNotFound, db)
  | some pool =>
    match pool.add_liquidity dx dy with
    | (.error _, _) => (.error .invalidSwapParams, db)
    | (.ok _, pool') => (.ok (), putPool db pool')

/-- Database-level liquidity removal: look the pool up and apply
`Pool.remove_liquidity`, committing the updated row. -/
def db_remove_liquidity (db : Db) (pool_id : Nat) (dx dy : ℚ) :
    Except ApiError Unit × Db :=
  match get_pool db pool_id with
  | none => (.error .poolNotFound, db)
  | some pool =>
    match pool.remove_liquidity dx dy with
    | (.error _, _) => (.error .invalidSwapParams, db)
    | (.ok _, pool') => (.ok (), putPool db pool')

/-- Reachable database states: starting from the empty database, any
sequence of the boundary operations. Group rows are created at experiment
creation (`api/app/experiments/repository.py`); round rows are created by
`create_round` whose request schema (`api/app/rounds/schemas.py`) enforces
`initial_reserve_x > 0` and `initial_reserve_y > 0` and whose timestamps
start unset; pool rows are created by `create_pool`
(`app/pools/routes.py` / `app/pools/schemas.py`, `x_init > 0`,
`y_init > 0`, `K = x_init * y_init`). The remaining steps are the
lifecycle and engine operations; each failed operation returns the state
unchanged, so the step constructors cover both outcomes. -/
inductive Reachable : Db → Prop where
  | empty : Reachable ⟨[], [], [], [], [], []⟩
  | addGroup (db : Db) (g : Group) : Reachable db →
      Reachable { db with groups := db.groups ++ [g] }
  | addRound (db : Db) (r : Round) : Reachable db →
      0 < r.initial_reserve_x → 0 < r.initial_reserve_y →
      r.started_at = none → r.ended_at = none →
      Reachable { db with rounds := db.rounds ++ [r] }
  | addPool (db : Db) (p : Pool) : Reachable db →
      0 < p.x_reserve → 0 < p.y_reserve → p.K = p.x_reserve * p.y_reserve →
      Reachable { db with pools := db.pools ++ [p] }
  | initPools (db : Db) (round_id : Nat) : Reachable db →
      Reachable (initialize_experiment_rounds db round_id).2
  | startRound (db : Db) (round_id now : Nat) : Reachable db →
      Reachable (start_round db round_id now).2
  | endRound (db : Db) (round_id now : Nat) : Reachable db →
      Reachable (end_round db round_id now).2
  | swapX (db : Db) (pool_id : Nat) (req : SwapRequest) : Reachable db →
      Reachable (route_swap_x_for_y db pool_id req).2
  | swapY (db : Db) (pool_id : Nat) (req : SwapRequest) : Reachable db →
      Reachable (route_swap_y_for_x db pool_id req).2
  | addLiq (db : Db) (pool_id : Nat) (dx dy : ℚ) : Reachable db →
      Reachable (db_add_liquidity db pool_id dx dy).2
  | removeLiq (db : Db) (pool_id : Nat) (dx dy : ℚ) : Reachable db →
      Reachable (db_remove_liquidity db pool_id dx dy).2

/-! Concrete example values, used to instantiate the theorems below.
`poolEx` is the spec's worked example: reserves 1000/1000, `K = 1000000`. -/

/-- Example pool with the spec's seed values. -/
def poolEx : Pool :=
  { id := 1, currency_x_id := 10, currency_y_id := 11,
    x_reserve := 1000, y_reserve := 1000, K := 1000000, is_active := true }

/-- Example pool whose stored `K` is zero while its reserves are not:
the state reached by removing all liquidity and then re-adding only X,
or by direct construction; no code path guards against it. -/
def poolZeroK : Pool :=
  { id := 2, currency_x_id := 10, currency_y_id := 11,
    x_reserve := 1, y_reserve := 2, K := 0, is_active := true }

/-- The state of `poolEx` after `swap_x_for_y 100`, per the spec's worked
example: `x = 1100`, `y = 1000000 / 1100`. -/
def poolExAfter : Pool :=
  { poolEx with x_reserve := 1100, y_reserve := 1000000 / 1100 }

/-- Example database holding `poolEx` and one zero player balance. -/
def dbEx : Db :=
  { pools := [poolEx], transactions := [],
    player_balances := [{ player_id := 7, experiment_round_id := 1,
                          currency_id := 10, balance := 0 }],
    rounds := [], groups := [], experiment_rounds := [] }

/-- Flag update used to state that swaps never consult `is_active`. -/
def setActive (p : Pool) (b : Bool) : Pool :=
  { p with is_active := b }

/-- Database-wide flag update for the same statement. -/
def dbSetActive (db : Db) (b : Bool) : Db :=
  { db with pools := db.pools.map (fun p => setActive p b) }

/-- Example round that already started and ended. -/
def roundDone : Round :=
  { id := 1, experiment_id := 1, initial_reserve_x := 1000,
    initial_reserve_y := 1000, started_at := some 0, ended_at := some 1 }

/-- Example round that was never started. -/
def roundFresh : Round :=
  { id := 2, experiment_id := 1, initial_reserve_x := 1000,
    initial_reserve_y := 1000, started_at := none, ended_at := none }

/-- Example database with one finished and one fresh round. -/
def dbRounds : Db :=
  { pools := [], transactions := [], player_balances := [],
    rounds := [roundDone, roundFresh], groups := [], experiment_rounds := [] }

/-- Three groups of one experiment, per the spec's `num_groups = 3`
example. -/
def groupsEx : List Group :=
  [{ id := 1, experiment_id := 1, group_number := 1 },
   { id := 2, experiment_id := 1, group_number := 2 },
   { id := 3, experiment_id := 1, group_number := 3 }]

/-- Example database with three groups and the fresh round. -/
def dbGroups : Db :=
  { pools := [], transactions := [], player_balances := [],
    rounds := [roundFresh], groups := groupsEx, experiment_rounds := [] }

/-- The pool instances that initializing `roundFresh` over `groupsEx`
creates. -/
def ersEx : List ExperimentRound :=
  [{ round_id := 2, group_id := 1, reserve_x := 1000, reserve_y := 1000,
     k_constant := 1000000, transaction_fee_percent := 0, is_active := false,
     started_at := none, ended_at := none },
   { round_id := 2, group_id := 2, reserve_x := 1000, reserve_y := 1000,
     k_constant := 1000000, transaction_fee_percent := 0, is_active := false,
     started_at := none, ended_at := none },
   { round_id := 2, group_id := 3, reserve_x := 1000, reserve_y := 1000,
     k_constant := 1000000, transaction_fee_percent := 0, is_active := false,
     started_at := none, ended_at := none }]

/-- `dbGroups` after pool initialization. -/
def dbGroupsPost : Db :=
  { dbGroups with experiment_rounds := ersEx }

/-- Seed round and group for the reachable-state example. -/
def roundSeed : Round :=
  { id := 1, experiment_id := 1, initial_reserve_x := 1000,
    initial_reserve_y := 1000, started_at := none, ended_at := none }

/-- Seed group for the reachable-state example. -/
def groupSeed : Group :=
  { id := 1, experiment_id := 1, group_number := 1 }

/-- Intermediate database for the reachable-state example: one group. -/
def dbGroupOnly : Db :=
  { pools := [], transactions := [], player_balances := [],
    rounds := [], groups := [groupSeed], experiment_rounds := [] }

/-- Base database for the reachable-state example: one round, one group. -/
def dbSeed : Db :=
  { pools := [], transactions := [], player_balances := [],
    rounds := [roundSeed], groups := [groupSeed], experiment_rounds := [] }

/-- The inactive pool instance seeded by initializing the seed round. -/
def erSeeded : ExperimentRound :=
  { round_id := 1, group_id := 1, reserve_x := 1000, reserve_y := 1000,
    k_constant := 1000000, transaction_fee_percent := 0, is_active := false,
    started_at := none, ended_at := none }

/-- `dbSeed` after pool initialization. -/
def dbSeedPost : Db :=
  { dbSeed with experiment_rounds := [erSeeded] }

/-- Reachable state with one active pool instance: initialize the seed
round's pools, then start the round at clock 0. -/
def dbActive : Db :=
  (start_round (initialize_experiment_rounds dbSeed 1).2 1 0).2

/-- The active pool instance held by `dbActive`. -/
def erActive : ExperimentRound :=
  { round_id := 1, group_id := 1, reserve_x := 1000, reserve_y := 1000,
    k_constant := 1000000, transaction_fee_percent := 0, is_active := true,
    started_at := some 0, ended_at := none }

end AmmGame

namespace AmmGame

/-- C1: for a pool with positive reserves, `K = x_reserve * y_reserve` and
`dx > 0`, `swap_x_for_y dx` returns `dy = y_reserve - K / (x_reserve + dx)`,
commits reserves `(x_reserve + dx, K / (x_reserve + dx))`, the product of
the new reserves equals the pre-swap `K` (exactly, in exact arithmetic),
and the new Y reserve is strictly below the old one. -/
theorem swap_x_for_y_spec (p : Pool) (dx : ℚ)
    (hx : 0 < p.x_reserve) (hy : 0 < p.y_reserve)
    (hk : p.K = p.x_reserve * p.y_reserve) (hdx : 0 < dx) :
    (p.swap_x_for_y dx).1 = .ok (p.y_reserve - p.K / (p.x_reserve + dx)) ∧
    (p.swap_x_for_y dx).2.x_reserve = p.x_reserve + dx ∧
    (p.swap_x_for_y dx).2.y_reserve = p.K / (p.x_reserve + dx) ∧
    (p.swap_x_for_y dx).2.x_reserve * (p.swap_x_for_y dx).2.y_reserve = p.K ∧
    (p.swap_x_for_y dx).2.y_reserve < p.y_reserve := by
  have hxd : (0:ℚ) < p.x_reserve + dx := by linarith
  have hne : p.x_reserve + dx ≠ 0 := ne_of_gt hxd
  have hres : p.swap_x_for_y dx =
      (.ok (p.y_reserve - p.K / (p.x_reserve + dx)),
       { p with x_reserve := p.x_reserve + dx,
                y_reserve := p.K / (p.x_reserve + dx) }) := by
    simp [Pool.swap_x_for_y, not_le.mpr hdx]
  rw [hres]
  refine ⟨rfl, rfl, rfl, ?_, ?_⟩
  · show (p.x_reserve + dx) * (p.K / (p.x_reserve + dx)) = p.K
    field_simp
  · show p.K / (p.x_reserve + dx) < p.y_reserve
    rw [div_lt_iff₀ hxd]
    nlinarith

/-- Witness for C1 at the spec's example pool and `dx = 100`. -/
theorem swap_x_for_y_spec_witness :
    0 < poolEx.x_reserve ∧ 0 < poolEx.y_reserve ∧
    poolEx.K = poolEx.x_reserve * poolEx.y_reserve ∧ (0:ℚ) < 100 ∧
    (poolEx.swap_x_for_y 100).2.x_reserve * (poolEx.swap_x_for_y 100).2.y_reserve
      = poolEx.K ∧
    (poolEx.swap_x_for_y 100).2.y_reserve < poolEx.y_reserve := by
  have h := swap_x_for_y_spec poolEx 100 (by norm_num [poolEx])
    (by norm_num [poolEx]) (by norm_num [poolEx]) (by norm_num)
  exact ⟨by norm_num [poolEx], by norm_num [poolEx], by norm_num [poolEx],
    by norm_num, h.2.2.2.1, h.2.2.2.2⟩

/-- C9: a non-positive swap input is rejected by both engine swaps with
the `InvalidAmount` error (`ValueError` raised before any mutation), and
the pool — both reserves and `K` — is left unchanged. -/
theorem swap_nonpositive_rejected (p : Pool) (dx : ℚ) (h : dx ≤ 0) :
    p.swap_x_for_y dx = (.error .invalidAmount, p) ∧
    p.swap_y_for_x dx = (.error .invalidAmount, p) := by
  simp [Pool.swap_x_for_y, Pool.swap_y_for_x, h]

/-- Witness for C9 at `dx = 0` on the example pool. -/
theorem swap_nonpositive_rejected_witness :
    (0:ℚ) ≤ 0 ∧
    poolEx.swap_x_for_y 0 = (.error .invalidAmount, poolEx) ∧
    poolEx.swap_y_for_x 0 = (.error .invalidAmount, poolEx) := by
  have h := swap_nonpositive_rejected poolEx 0 (by norm_num)
  exact ⟨le_refl 0, h.1, h.2⟩

/-- C2 counterexample: the engine has no `InsufficientLiquidity` check.
On a pool whose stored `K` is zero (reserves 1 and 2), `swap_x_for_y 1`
drives the Y reserve to exactly zero and commits it, returning `dy = 2`
instead of failing. -/
theorem no_insufficient_liquidity_check_cex :
    (poolZeroK.swap_x_for_y 1).1 = .ok 2 ∧
    (poolZeroK.swap_x_for_y 1).2.y_reserve = 0 := by
  norm_num [Pool.swap_x_for_y, poolZeroK]

/-- C2 amended: neither swap performs an `InsufficientLiquidity` check;
instead, whenever the stored `K` is positive and the incoming-side
reserve is non-negative, the committed reserves of either swap are
strictly positive, so no swap with `d > 0` can drive a reserve to zero or
negative on such a pool (the rejection the claim describes would be
vacuous there, and on a pool with `K = 0` it does not happen at all). -/
theorem swap_reserves_stay_positive (p : Pool) (d : ℚ)
    (hK : 0 < p.K) (hx : 0 ≤ p.x_reserve) (hy : 0 ≤ p.y_reserve) (hd : 0 < d) :
    (0 < (p.swap_x_for_y d).2.x_reserve ∧ 0 < (p.swap_x_for_y d).2.y_reserve) ∧
    (0 < (p.swap_y_for_x d).2.x_reserve ∧ 0 < (p.swap_y_for_x d).2.y_reserve) := by
  have hxd : (0:ℚ) < p.x_reserve + d := by linarith
  have hyd : (0:ℚ) < p.y_reserve + d := by linarith
  have hresx : p.swap_x_for_y d =
      (.ok (p.y_reserve - p.K / (p.x_reserve + d)),
       { p with x_reserve := p.x_reserve + d,
                y_reserve := p.K / (p.x_reserve + d) }) := by
    simp [Pool.swap_x_for_y, not_le.mpr hd]
  have hresy : p.swap_y_for_x d =
      (.ok (p.x_reserve - p.K / (p.y_reserve + d)),
       { p with x_reserve := p.K / (p.y_reserve + d),
                y_reserve := p.y_reserve + d }) := by
    simp [Pool.swap_y_for_x, not_le.mpr hd]
  rw [hresx, hresy]
  exact ⟨⟨hxd, div_pos hK hxd⟩, ⟨div_pos hK hyd, hyd⟩⟩

/-- Witness for the amended C2 at the example pool and `d = 100`. -/
theorem swap_reserves_stay_positive_witness :
    0 < poolEx.K ∧ 0 ≤ poolEx.x_reserve ∧ 0 ≤ poolEx.y_reserve ∧ (0:ℚ) < 100 ∧
    0 < (poolEx.swap_x_for_y 100).2.y_reserve ∧
    0 < (poolEx.swap_y_for_x 100).2.x_reserve := by
  have h := swap_reserves_stay_positive poolEx 100 (by norm_num [poolEx])
    (by norm_num [poolEx]) (by norm_num [poolEx]) (by norm_num)
  exact ⟨by norm_num [poolEx], by norm_num [poolEx], by norm_num [poolEx],
    by norm_num, h.1.2, h.2.1⟩

/-- C6: swapping X for Y and then feeding the exact output back through
`swap_y_for_x` restores both reserves exactly (the embedding is exact
arithmetic, so the bounded rounding drift of the claim is zero here), and
returns exactly the original `dx`. -/
theorem swap_round_trip (p : Pool) (dx dy : ℚ) (p' : Pool)
    (hx : 0 < p.x_reserve) (hy : 0 < p.y_reserve)
    (hk : p.K = p.x_reserve * p.y_reserve) (hdx : 0 < dx)
    (hswap : p.swap_x_for_y dx = (.ok dy, p')) :
    (p'.swap_y_for_x dy).1 = .ok dx ∧
    (p'.swap_y_for_x dy).2.x_reserve = p.x_reserve ∧
    (p'.swap_y_for_x dy).2.y_reserve = p.y_reserve := by
  have hxd : (0:ℚ) < p.x_reserve + dx := by linarith
  have hne : p.x_reserve + dx ≠ 0 := ne_of_gt hxd
  have hyne : p.y_reserve ≠ 0 := ne_of_gt hy
  have hres : p.swap_x_for_y dx =
      (.ok (p.y_reserve - p.K / (p.x_reserve + dx)),
       { p with x_reserve := p.x_reserve + dx,
                y_reserve := p.K / (p.x_reserve + dx) }) := by
    simp [Pool.swap_x_for_y, not_le.mpr hdx]
  rw [hres] at hswap
  have hdyeq : dy = p.y_reserve - p.K / (p.x_reserve + dx) := by
    have := congrArg Prod.fst hswap
    simpa using this.symm
  have hp' : p' = { p with x_reserve := p.x_reserve + dx,
                           y_reserve := p.K / (p.x_reserve + dx) } := by
    have := congrArg Prod.snd hswap
    simpa using this.symm
  have hdy : 0 < dy := by
    rw [hdyeq, sub_pos, div_lt_iff₀ hxd]
    nlinarith
  have hback : p'.y_reserve + dy = p.y_reserve := by
    rw [hp', hdyeq]
    show p.K / (p.x_reserve + dx) + (p.y_reserve - p.K / (p.x_reserve + dx))
      = p.y_reserve
    ring
  have hKback : p'.K / (p'.y_reserve + dy) = p.x_reserve := by
    rw [hback, hp']
    show p.K / p.y_reserve = p.x_reserve
    rw [hk]
    field_simp
  have hres2 : p'.swap_y_for_x dy =
      (.ok (p'.x_reserve - p'.K / (p'.y_reserve + dy)),
       { p' with x_reserve := p'.K / (p'.y_reserve + dy),
                 y_reserve := p'.y_reserve + dy }) := by
    simp [Pool.swap_y_for_x, not_le.mpr hdy]
  rw [hres2]
  refine ⟨?_, ?_, ?_⟩
  · show Except.ok (p'.x_reserve - p'.K / (p'.y_reserve + dy)) = Except.ok dx
    rw [hKback, hp']
    show Except.ok (p.x_reserve + dx - p.x_reserve) = Except.ok dx
    ring_nf
  · show p'.K / (p'.y_reserve + dy) = p.x_reserve
    exact hKback
  · show p'.y_reserve + dy = p.y_reserve
    exact hback

/-- C3: when the engine output of a swap is below the request's
`min_amount_out`, the route fails with the slippage error and the
committed database is exactly the pre-swap one: the pool's reserves are
unchanged and no transaction row is created (the in-memory reserve
mutation and the pending ledger entry are discarded together, because the
request aborts before `db.commit()`). -/
theorem slippage_rejected_atomically (db : Db) (pool_id : Nat)
    (req : SwapRequest) (pool : Pool)
    (hfind : get_pool db pool_id = some pool) :
    (∀ amount_out pool',
      pool.swap_x_for_y req.amount_in = (.ok amount_out, pool') →
      amount_out < req.min_amount_out →
      route_swap_x_for_y db pool_id req = (.error .slippageExceeded, db)) ∧
    (∀ amount_out pool',
      pool.swap_y_for_x req.amount_in = (.ok amount_out, pool') →
      amount_out < req.min_amount_out →
      route_swap_y_for_x db pool_id req = (.error .slippageExceeded, db)) := by
  constructor
  · intro amount_out pool' hswap hlt
    simp [route_swap_x_for_y, hfind, hswap, hlt]
  · intro amount_out pool' hswap hlt
    simp [route_swap_y_for_x, hfind, hswap, hlt]

/-- Witness for C3: the spec's worked example, `min_amount_out = 91`
against an output of `1000/11 ≈ 90.9`. -/
theorem slippage_rejected_atomically_witness :
    route_swap_x_for_y dbEx 1 { amount_in := 100, min_amount_out := 91 }
      = (.error .slippageExceeded, dbEx) := by
  have hfind : get_pool dbEx 1 = some poolEx := by
    norm_num [get_pool, dbEx, List.find?, poolEx]
  have hswap : poolEx.swap_x_for_y 100
      = (.ok (1000 - 1000000 / 1100), poolExAfter) := by
    norm_num [Pool.swap_x_for_y, poolEx, poolExAfter]
  exact (slippage_rejected_atomically dbEx 1
      { amount_in := 100, min_amount_out := 91 } poolEx hfind).1
    (1000 - 1000000 / 1100) poolExAfter hswap (by norm_num)

/-- C4 counterexample: an executed swap does append exactly one
Transaction, but player balances are never updated and there is no
`InsufficientBalance` check. Against `dbEx`, whose only player balance is
0 units of the in-currency for player 7, a swap of `amount_in = 100`
succeeds (though the claim demands an `InsufficientBalance` failure, as
the balance would go to `-100`), and the balance row is left at 0 rather
than debited. -/
theorem record_swap_no_balance_update_cex :
    (route_swap_x_for_y dbEx 1 { amount_in := 100, min_amount_out := 0 }).1
      = .ok { amount_out := 1000 - 1000000 / 1100,
              price_execution := (1000 - 1000000 / 1100) / 100 } ∧
    (route_swap_x_for_y dbEx 1 { amount_in := 100, min_amount_out := 0 }).2.player_balances
      = dbEx.player_balances ∧
    (route_swap_x_for_y dbEx 1 { amount_in := 100, min_amount_out := 0 }).2.player_balances
      ≠ [{ player_id := 7, experiment_round_id := 1, currency_id := 10,
           balance := 0 - 100 }] ∧
    (route_swap_x_for_y dbEx 1 { amount_in := 100, min_amount_out := 0 }).2.transactions.length
      = dbEx.transactions.length + 1 := by
  have hfind : get_pool dbEx 1 = some poolEx := by
    norm_num [get_pool, dbEx, List.find?, poolEx]
  have hswap : poolEx.swap_x_for_y 100
      = (.ok (1000 - 1000000 / 1100), poolExAfter) := by
    norm_num [Pool.swap_x_for_y, poolEx, poolExAfter]
  have hmin : ¬ (1000 - 1000000 / 1100 : ℚ) < 0 := by norm_num
  refine ⟨?_, ?_, ?_, ?_⟩ <;>
  · simp only [route_swap_x_for_y, hfind, hswap, create_transaction_record,
      putPool]
    norm_num [dbEx, poolEx, poolExAfter]

/-- C4 amended: a successful route swap appends exactly one Transaction
(the row built by `create_transaction_record`, with `user_id` unset and
`price_execution = amount_out / amount_in`) and leaves `player_balances`
entirely untouched; `create_transaction_record` itself never reads or
writes balances, and no `InsufficientBalance` rejection exists. -/
theorem record_swap_appends_single_tx (db : Db) (pool_id : Nat)
    (req : SwapRequest) (pool : Pool) (amount_out : ℚ) (pool' : Pool)
    (hfind : get_pool db pool_id = some pool)
    (hswap : pool.swap_x_for_y req.amount_in = (.ok amount_out, pool'))
    (hmin : ¬ amount_out < req.min_amount_out) :
    (route_swap_x_for_y db pool_id req).1
      = .ok { amount_out := amount_out,
              price_execution :=
                if 0 < req.amount_in then amount_out / req.amount_in else 0 } ∧
    (route_swap_x_for_y db pool_id req).2.transactions
      = db.transactions ++
        [(create_transaction_record (putPool db pool') pool.id
            pool.currency_x_id pool.currency_y_id req.amount_in amount_out).1] ∧
    (route_swap_x_for_y db pool_id req).2.player_balances
      = db.player_balances ∧
    (∀ (a b c : Nat) (d e : ℚ),
      (create_transaction_record db a b c d e).2.player_balances
        = db.player_balances ∧
      (create_transaction_record db a b c d e).2.transactions
        = db.transactions ++ [(create_transaction_record db a b c d e).1]) := by
  refine ⟨?_, ?_, ?_, ?_⟩
  · simp [route_swap_x_for_y, hfind, hswap, hmin, create_transaction_record,
      putPool]
  · simp [route_swap_x_for_y, hfind, hswap, hmin, create_transaction_record,
      putPool]
  · simp [route_swap_x_for_y, hfind, hswap, hmin, create_transaction_record,
      putPool]
  · intro a b c d e
    exact ⟨rfl, rfl⟩

/-- Witness for the amended C4 at the example database. -/
theorem record_swap_appends_single_tx_witness :
    (route_swap_x_for_y dbEx 1 { amount_in := 100, min_amount_out := 0 }).2.player_balances
      = dbEx.player_balances ∧
    (route_swap_x_for_y dbEx 1 { amount_in := 100, min_amount_out := 0 }).2.transactions
      = dbEx.transactions ++
        [(create_transaction_record (putPool dbEx poolExAfter) poolEx.id
            poolEx.currency_x_id poolEx.currency_y_id 100
            (1000 - 1000000 / 1100)).1] := by
  have hfind : get_pool dbEx 1 = some poolEx := by
    norm_num [get_pool, dbEx, List.find?, poolEx]
  have hswap : poolEx.swap_x_for_y 100
      = (.ok (1000 - 1000000 / 1100), poolExAfter) := by
    norm_num [Pool.swap_x_for_y, poolEx, poolExAfter]
  have h := record_swap_appends_single_tx dbEx 1
    { amount_in := 100, min_amount_out := 0 } poolEx
    (1000 - 1000000 / 1100) poolExAfter hfind hswap (by norm_num)
  exact ⟨h.2.2.1, h.2.1⟩

/-- Witness for C6 at the example pool and `dx = 100`. -/
theorem swap_round_trip_witness :
    poolEx.swap_x_for_y 100 = (.ok (1000 - 1000000 / 1100), poolExAfter) ∧
    (poolExAfter.swap_y_for_x (1000 - 1000000 / 1100)).2.x_reserve
      = poolEx.x_reserve := by
  have hswap : poolEx.swap_x_for_y 100
      = (.ok (1000 - 1000000 / 1100), poolExAfter) := by
    norm_num [Pool.swap_x_for_y, poolEx, poolExAfter]
  have h := swap_round_trip poolEx 100 (1000 - 1000000 / 1100) poolExAfter
    (by norm_num [poolEx]) (by norm_num [poolEx]) (by norm_num [poolEx])
    (by norm_num) hswap
  exact ⟨hswap, h.2.1⟩

/-- C7: `start_round` fails with `AlreadyStarted` when the round's
`started_at` is set; `end_round` fails with `NotStarted` when
`started_at` is unset, and with `AlreadyEnded` when the round started and
`ended_at` is set (the source checks the guards in that order, before any
mutation); in every failure case the database — the round and all its
pool instances — is unchanged. -/
theorem lifecycle_transition_guards (db : Db) (round_id now : Nat) (r : Round)
    (hfind : get_round_by_id db round_id = some r) :
    (r.started_at.isSome →
      start_round db round_id now = (.error .alreadyStarted, db)) ∧
    (r.started_at = none →
      end_round db round_id now = (.error .notStarted, db)) ∧
    (r.started_at.isSome → r.ended_at.isSome →
      end_round db round_id now = (.error .alreadyEnded, db)) := by
  refine ⟨?_, ?_, ?_⟩
  · intro hs
    simp [start_round, hfind, hs]
  · intro hs
    simp [end_round, hfind, hs]
  · intro hs he
    obtain ⟨t, ht⟩ := Option.isSome_iff_exists.mp hs
    simp [end_round, hfind, ht, he]

/-- Witness for C7: the finished round rejects both transitions and the
fresh round rejects `end_round`, each leaving the database unchanged. -/
theorem lifecycle_transition_guards_witness :
    start_round dbRounds 1 5 = (.error .alreadyStarted, dbRounds) ∧
    end_round dbRounds 1 5 = (.error .alreadyEnded, dbRounds) ∧
    end_round dbRounds 2 5 = (.error .notStarted, dbRounds) := by
  have hfind1 : get_round_by_id dbRounds 1 = some roundDone := by decide
  have hfind2 : get_round_by_id dbRounds 2 = some roundFresh := by decide
  have h1 := lifecycle_transition_guards dbRounds 1 5 roundDone hfind1
  have h2 := lifecycle_transition_guards dbRounds 2 5 roundFresh hfind2
  exact ⟨h1.1 (by norm_num [roundDone]), h1.2.2 (by norm_num [roundDone])
    (by norm_num [roundDone]), h2.2.1 (by norm_num [roundFresh])⟩

/-- C8: on a known round id, pool initialization returns one
ExperimentRound per Group of the round's experiment, each seeded with the
round's initial reserves, `k_constant` their product, `is_active = false`,
and group ids exactly the ids of those groups — pairwise distinct
whenever the group table's ids are (they are its primary keys); the rows
are appended to the database. On an unknown round id it fails with
`RoundNotFound` and creates nothing. -/
theorem init_pools_per_group (db : Db) (round_id : Nat) :
    (get_round_by_id db round_id = none →
      initialize_experiment_rounds db round_id = (.error .roundNotFound, db)) ∧
    (∀ r, get_round_by_id db round_id = some r →
      ∀ ers db', initialize_experiment_rounds db round_id = (.ok ers, db') →
        db' = { db with experiment_rounds := db.experiment_rounds ++ ers } ∧
        ers.length = (db.groups.filter
          (fun g => g.experiment_id == r.experiment_id)).length ∧
        (∀ er ∈ ers, er.round_id = round_id ∧
          er.reserve_x = r.initial_reserve_x ∧
          er.reserve_y = r.initial_reserve_y ∧
          er.k_constant = r.initial_reserve_x * r.initial_reserve_y ∧
          er.is_active = false) ∧
        ers.map (fun er => er.group_id)
          = (db.groups.filter
              (fun g => g.experiment_id == r.experiment_id)).map
              (fun g => g.id) ∧
        ((db.groups.map (fun g => g.id)).Nodup →
          (ers.map (fun er => er.group_id)).Nodup)) := by
  constructor
  · intro hnone
    simp [initialize_experiment_rounds, hnone]
  · intro r hfind ers db' heq
    rw [initialize_experiment_rounds] at heq
    rw [hfind] at heq
    simp only [Prod.mk.injEq, Except.ok.injEq] at heq
    obtain ⟨hers, hdb'⟩ := heq
    subst hers
    refine ⟨hdb'.symm, by simp, ?_, ?_, ?_⟩
    · intro er her
      simp only [List.mem_map] at her
      obtain ⟨g, _, rfl⟩ := her
      exact ⟨rfl, rfl, rfl, rfl, rfl⟩
    · rw [List.map_map]
      rfl
    · intro hnd
      rw [List.map_map]
      show (List.map (fun g : Group => g.id) _).Nodup
      exact hnd.sublist ((List.filter_sublist db.groups).map (fun g : Group => g.id))

/-- Witness for C8: the spec's `num_groups = 3` example creates exactly
three pool instances with distinct group ids, all inactive. -/
theorem init_pools_per_group_witness :
    initialize_experiment_rounds dbGroups 2 = (.ok ersEx, dbGroupsPost) ∧
    ersEx.length = 3 ∧
    (ersEx.map (fun er => er.group_id)).Nodup ∧
    ersEx.map (fun er => er.is_active) = [false, false, false] := by
  have hfind : get_round_by_id dbGroups 2 = some roundFresh := by decide
  have hcomp : initialize_experiment_rounds dbGroups 2
      = (.ok ersEx, dbGroupsPost) := by
    rw [initialize_experiment_rounds, hfind]
    norm_num [dbGroups, dbGroupsPost, groupsEx, roundFresh, ersEx,
      List.filter]
  obtain ⟨hdb, hlen, hfields, hmap, hnd⟩ :=
    (init_pools_per_group dbGroups 2).2 roundFresh hfind ersEx dbGroupsPost
      hcomp
  refine ⟨hcomp, ?_, hnd (by decide), by decide⟩
  rw [hlen]
  decide

theorem setActive_swap_x (p : Pool) (b : Bool) (d : ℚ) :
    (setActive p b).swap_x_for_y d
      = ((p.swap_x_for_y d).1, setActive (p.swap_x_for_y d).2 b) := by
  by_cases h : d ≤ 0 <;> simp [Pool.swap_x_for_y, setActive, h]

theorem setActive_swap_y (p : Pool) (b : Bool) (d : ℚ) :
    (setActive p b).swap_y_for_x d
      = ((p.swap_y_for_x d).1, setActive (p.swap_y_for_x d).2 b) := by
  by_cases h : d ≤ 0 <;> simp [Pool.swap_y_for_x, setActive, h]

theorem get_pool_setActive (db : Db) (b : Bool) (i : Nat) :
    get_pool (dbSetActive db b) i
      = (get_pool db i).map (fun p => setActive p b) := by
  simp only [get_pool, dbSetActive, List.find?_map]
  rfl

theorem putPool_setActive (db : Db) (p : Pool) (b : Bool) :
    putPool (dbSetActive db b) (setActive p b) = dbSetActive (putPool db p) b := by
  simp only [putPool, dbSetActive, List.map_map]
  congr 1
  apply List.map_congr_left
  intro q _
  by_cases h : q.id == p.id <;> simp [setActive, Function.comp, h]

theorem create_transaction_record_setActive (db : Db) (b : Bool)
    (i ci co : Nat) (ain aout : ℚ) :
    create_transaction_record (dbSetActive db b) i ci co ain aout
      = ((create_transaction_record db i ci co ain aout).1,
         dbSetActive (create_transaction_record db i ci co ain aout).2 b) := rfl

theorem route_swap_x_setActive (db : Db) (b : Bool) (i : Nat)
    (req : SwapRequest) :
    route_swap_x_for_y (dbSetActive db b) i req
      = ((route_swap_x_for_y db i req).1,
         dbSetActive (route_swap_x_for_y db i req).2 b) := by
  rcases hfind : get_pool db i with _ | pool
  · have h2 : get_pool (dbSetActive db b) i = none := by
      rw [get_pool_setActive, hfind]; rfl
    simp [route_swap_x_for_y, hfind, h2]
  · have h2 : get_pool (dbSetActive db b) i = some (setActive pool b) := by
      rw [get_pool_setActive, hfind]; rfl
    rcases hsw : pool.swap_x_for_y req.amount_in with ⟨res, p'⟩
    have hsw2 : (setActive pool b).swap_x_for_y req.amount_in
        = (res, setActive p' b) := by
      rw [setActive_swap_x, hsw]
    cases res with
    | error e =>
      simp [route_swap_x_for_y, hfind, h2, hsw, hsw2]
    | ok amount_out =>
      by_cases hlt : amount_out < req.min_amount_out
      · simp [route_swap_x_for_y, hfind, h2, hsw, hsw2, hlt]
      · simp only [route_swap_x_for_y, hfind, h2, hsw, hsw2, if_neg hlt]
        rw [putPool_setActive, create_transaction_record_setActive]
        rfl

theorem route_swap_y_setActive (db : Db) (b : Bool) (i : Nat)
    (req : SwapRequest) :
    route_swap_y_for_x (dbSetActive db b) i req
      = ((route_swap_y_for_x db i req).1,
         dbSetActive (route_swap_y_for_x db i req).2 b) := by
  rcases hfind : get_pool db i with _ | pool
  · have h2 : get_pool (dbSetActive db b) i = none := by
      rw [get_pool_setActive, hfind]; rfl
    simp [route_swap_y_for_x, hfind, h2]
  · have h2 : get_pool (dbSetActive db b) i = some (setActive pool b) := by
      rw [get_pool_setActive, hfind]; rfl
    rcases hsw : pool.swap_y_for_x req.amount_in with ⟨res, p'⟩
    have hsw2 : (setActive pool b).swap_y_for_x req.amount_in
        = (res, setActive p' b) := by
      rw [setActive_swap_y, hsw]
    cases res with
    | error e =>
      simp [route_swap_y_for_x, hfind, h2, hsw, hsw2]
    | ok amount_out =>
      by_cases hlt : amount_out < req.min_amount_out
      · simp [route_swap_y_for_x, hfind, h2, hsw, hsw2, hlt]
      · simp only [route_swap_y_for_x, hfind, h2, hsw, hsw2, if_neg hlt]
        rw [putPool_setActive, create_transaction_record_setActive]
        rfl

/-- C10: neither the engine swaps nor the swap routes consult
`is_active`: overwriting the flag (in particular setting it to `false`,
a deactivated pool) changes neither the returned result nor the committed
reserves and transaction of any swap — the outcome is the flag-rewritten
outcome on the original pool, so a swap is never rejected for the pool
being inactive. -/
theorem swap_never_consults_is_active (p : Pool) (b : Bool) (d : ℚ)
    (db : Db) (pool_id : Nat) (req : SwapRequest) :
    ((setActive p b).swap_x_for_y d).1 = (p.swap_x_for_y d).1 ∧
    ((setActive p b).swap_x_for_y d).2 = setActive (p.swap_x_for_y d).2 b ∧
    ((setActive p b).swap_y_for_x d).1 = (p.swap_y_for_x d).1 ∧
    ((setActive p b).swap_y_for_x d).2 = setActive (p.swap_y_for_x d).2 b ∧
    (route_swap_x_for_y (dbSetActive db b) pool_id req).1
      = (route_swap_x_for_y db pool_id req).1 ∧
    (route_swap_x_for_y (dbSetActive db b) pool_id req).2
      = dbSetActive (route_swap_x_for_y db pool_id req).2 b ∧
    (route_swap_y_for_x (dbSetActive db b) pool_id req).1
      = (route_swap_y_for_x db pool_id req).1 ∧
    (route_swap_y_for_x (dbSetActive db b) pool_id req).2
      = dbSetActive (route_swap_y_for_x db pool_id req).2 b := by
  refine ⟨?_, ?_, ?_, ?_, ?_, ?_, ?_, ?_⟩
  · rw [setActive_swap_x]
  · rw [setActive_swap_x]
  · rw [setActive_swap_y]
  · rw [setActive_swap_y]
  · rw [route_swap_x_setActive]
  · rw [route_swap_x_setActive]
  · rw [route_swap_y_setActive]
  · rw [route_swap_y_setActive]

theorem route_swap_x_keeps_rounds (db : Db) (i : Nat) (req : SwapRequest) :
    (route_swap_x_for_y db i req).2.rounds = db.rounds ∧
    (route_swap_x_for_y db i req).2.experiment_rounds
      = db.experiment_rounds := by
  rcases hfind : get_pool db i with _ | pool
  · simp [route_swap_x_for_y, hfind]
  · rcases hsw : pool.swap_x_for_y req.amount_in with ⟨res, p'⟩
    cases res with
    | error e => simp [route_swap_x_for_y, hfind, hsw]
    | ok amount_out =>
      by_cases hlt : amount_out < req.min_amount_out
      · simp [route_swap_x_for_y, hfind, hsw, hlt]
      · simp [route_swap_x_for_y, hfind, hsw, hlt, putPool,
          create_transaction_record]

theorem route_swap_y_keeps_rounds (db : Db) (i : Nat) (req : SwapRequest) :
    (route_swap_y_for_x db i req).2.rounds = db.rounds ∧
    (route_swap_y_for_x db i req).2.experiment_rounds
      = db.experiment_rounds := by
  rcases hfind : get_pool db i with _ | pool
  · simp [route_swap_y_for_x, hfind]
  · rcases hsw : pool.swap_y_for_x req.amount_in with ⟨res, p'⟩
    cases res with
    | error e => simp [route_swap_y_for_x, hfind, hsw]
    | ok amount_out =>
      by_cases hlt : amount_out < req.min_amount_out
      · simp [route_swap_y_for_x, hfind, hsw, hlt]
      · simp [route_swap_y_for_x, hfind, hsw, hlt, putPool,
          create_transaction_record]

theorem db_add_liquidity_keeps_rounds (db : Db) (i : Nat) (dx dy : ℚ) :
    (db_add_liquidity db i dx dy).2.rounds = db.rounds ∧
    (db_add_liquidity db i dx dy).2.experiment_rounds
      = db.experiment_rounds := by
  rcases hfind : get_pool db i with _ | pool
  · simp [db_add_liquidity, hfind]
  · rcases hop : pool.add_liquidity dx dy with ⟨res, p'⟩
    cases res with
    | error e => simp [db_add_liquidity, hfind, hop]
    | ok u => simp [db_add_liquidity, hfind, hop, putPool]

theorem db_remove_liquidity_keeps_rounds (db : Db) (i : Nat) (dx dy : ℚ) :
    (db_remove_liquidity db i dx dy).2.rounds = db.rounds ∧
    (db_remove_liquidity db i dx dy).2.experiment_rounds
      = db.experiment_rounds := by
  rcases hfind : get_pool db i with _ | pool
  · simp [db_remove_liquidity, hfind]
  · rcases hop : pool.remove_liquidity dx dy with ⟨res, p'⟩
    cases res with
    | error e => simp [db_remove_liquidity, hfind, hop]
    | ok u => simp [db_remove_liquidity, hfind, hop, putPool]

theorem reachable_invariants (db : Db) (h : Reachable db) :
    (∀ r ∈ db.rounds, 0 < r.initial_reserve_x ∧ 0 < r.initial_reserve_y) ∧
    (∀ er ∈ db.experiment_rounds,
      0 < er.reserve_x ∧ 0 < er.reserve_y ∧
      er.reserve_x * er.reserve_y = er.k_constant) := by
  induction h with
  | empty => simp
  | addGroup db g h ih => exact ih
  | addRound db r h hx hy hs he ih =>
    refine ⟨?_, ih.2⟩
    intro q hq
    rcases List.mem_append.mp hq with hq | hq
    · exact ih.1 q hq
    · rw [List.mem_singleton.mp hq]
      exact ⟨hx, hy⟩
  | addPool db p h hx hy hk ih => exact ih
  | initPools db rid h ih =>
    rcases hfind : get_round_by_id db rid with _ | r
    · simp only [initialize_experiment_rounds, hfind]
      exact ih
    · have hr := ih.1 r (List.mem_of_find?_eq_some hfind)
      simp only [initialize_experiment_rounds, hfind]
      refine ⟨ih.1, ?_⟩
      intro er her
      rcases List.mem_append.mp her with her | her
      · exact ih.2 er her
      · simp only [List.mem_map] at her
        obtain ⟨g, _, rfl⟩ := her
        exact ⟨hr.1, hr.2, rfl⟩
  | startRound db rid now h ih =>
    rcases hfind : get_round_by_id db rid with _ | r
    · simp only [start_round, hfind]
      exact ih
    · by_cases hs : r.started_at.isSome
      · simp only [start_round, hfind, hs, if_pos]
        exact ih
      · simp only [start_round, hfind, hs, if_neg, Bool.false_eq_true,
          not_false_eq_true]
        constructor
        · intro q hq
          simp only [List.mem_map] at hq
          obtain ⟨q₀, hq₀, rfl⟩ := hq
          by_cases hid : q₀.id == rid <;> simp [hid] <;> exact ih.1 q₀ hq₀
        · intro er her
          simp only [List.mem_map] at her
          obtain ⟨er₀, her₀, rfl⟩ := her
          by_cases hid : er₀.round_id == rid <;> simp [hid] <;>
            exact ih.2 er₀ her₀
  | endRound db rid now h ih =>
    rcases hfind : get_round_by_id db rid with _ | r
    · simp only [end_round, hfind]
      exact ih
    · by_cases hs : r.started_at.isNone
      · simp only [end_round, hfind, hs, if_pos]
        exact ih
      · by_cases he : r.ended_at.isSome
        · simp only [end_round, hfind, hs, he, if_pos, if_neg,
            Bool.false_eq_true, not_false_eq_true]
          exact ih
        · simp only [end_round, hfind, hs, he, Bool.false_eq_true,
            not_false_eq_true, if_neg]
          constructor
          · intro q hq
            simp only [List.mem_map] at hq
            obtain ⟨q₀, hq₀, rfl⟩ := hq
            by_cases hid : q₀.id == rid <;> simp [hid] <;> exact ih.1 q₀ hq₀
          · intro er her
            simp only [List.mem_map] at her
            obtain ⟨er₀, her₀, rfl⟩ := her
            by_cases hid : er₀.round_id == rid <;> simp [hid] <;>
              exact ih.2 er₀ her₀
  | swapX db pid req h ih =>
    obtain ⟨h1, h2⟩ := route_swap_x_keeps_rounds db pid req
    rw [h1, h2]
    exact ih
  | swapY db pid req h ih =>
    obtain ⟨h1, h2⟩ := route_swap_y_keeps_rounds db pid req
    rw [h1, h2]
    exact ih
  | addLiq db pid dx dy h ih =>
    obtain ⟨h1, h2⟩ := db_add_liquidity_keeps_rounds db pid dx dy
    rw [h1, h2]
    exact ih
  | removeLiq db pid dx dy h ih =>
    obtain ⟨h1, h2⟩ := db_remove_liquidity_keeps_rounds db pid dx dy
    rw [h1, h2]
    exact ih

/-- C5: in every database state reachable through the boundary operations
(experiment/round/pool creation, pool initialization, round start and
end, route swaps and liquidity changes), every ExperimentRound whose
`is_active` flag is set has strictly positive reserves whose product is
exactly its `k_constant` (exact arithmetic, hence within any rounding
tolerance). -/
theorem active_pool_invariant (db : Db) (h : Reachable db) :
    ∀ er ∈ db.experiment_rounds, er.is_active = true →
      0 < er.reserve_x ∧ 0 < er.reserve_y ∧
      er.reserve_x * er.reserve_y = er.k_constant := by
  intro er her _
  exact (reachable_invariants db h).2 er her

/-- Witness for C5: a concretely reachable state with one active pool
instance, built by creating a group and a round, initializing its pools
and starting it. -/
theorem active_pool_invariant_witness :
    0 < erActive.reserve_x ∧ 0 < erActive.reserve_y ∧
    erActive.reserve_x * erActive.reserve_y = erActive.k_constant := by
  have h1 : Reachable dbGroupOnly :=
    Reachable.addGroup _ groupSeed Reachable.empty
  have h2 : Reachable dbSeed := Reachable.addRound _ roundSeed h1
    (by norm_num [roundSeed]) (by norm_num [roundSeed]) rfl rfl
  have h3 : Reachable dbActive :=
    Reachable.startRound _ 1 0 (Reachable.initPools _ 1 h2)
  have hmem : erActive ∈ dbActive.experiment_rounds := by
    have hfind : get_round_by_id dbSeed 1 = some roundSeed := by decide
    have hinit : initialize_experiment_rounds dbSeed 1
        = (.ok [erSeeded], dbSeedPost) := by
      rw [initialize_experiment_rounds, hfind]
      norm_num [dbSeed, dbSeedPost, groupSeed, roundSeed, erSeeded,
        List.filter]
    rw [dbActive, hinit]
    norm_num [start_round, get_round_by_id, dbSeed, dbSeedPost, roundSeed,
      erSeeded, List.find?, erActive]
  exact active_pool_invariant dbActive h3 erActive hmem rfl

end AmmGame
